import Mathlib

/-!
Shallow embedding of `alpaca_mcp_server.py` (Alpaca MCP server).

Modelling conventions:
* Python `None`-able client globals become `Option` values.
* Each external SDK client is an oracle record: every SDK method the
  handlers call is a field returning `Except String _` (`Except.error`
  models a raised exception whose stringification is the payload).
* Each handler returns `String × List ApiCall`: the text the Python
  function returns, paired with the log of external API calls it issued,
  so that claims about "no external call is attempted" and "exactly one
  request" are statable.
* Python `datetime.now()` becomes an explicit `now : Int` parameter
  (seconds); `timedelta(days=d)` is `d * 86400` seconds.
* Numeric strings the SDK returns that the code converts with `float`
  (`unrealized_pl`, `market_value`) are modelled as the rationals they
  denote; `float(x)` is then the identity.  Python floats `qty`,
  `limit_price` are modelled as rationals.
* Python dicts returned by the data client are association lists;
  `symbol in d` is a successful `List.lookup`, and `not d or symbol not
  in d` collapses to a failed lookup since an empty dict has no keys.
-/

/-- Response shape of `trading_client.get_account()`; fields the handlers render. -/
structure Account where
  id : String
  status : String
  cash : String
  portfolio_value : String
  buying_power : String
  equity : String
  pattern_day_trader : String
  trading_blocked : String
  account_blocked : String
  created_at : String
  deriving DecidableEq

/-- Response element of `trading_client.get_all_positions()`. -/
structure Position where
  symbol : String
  qty : String
  side : String
  market_value : ℚ
  cost_basis : String
  unrealized_pl : ℚ
  unrealized_plpc : String
  current_price : String
  deriving DecidableEq

/-- Response element of `data_client.get_stock_latest_quote(...)`. -/
structure QuoteData where
  ask_price : String
  ask_size : String
  bid_price : String
  bid_size : String
  timestamp : String
  deriving DecidableEq

/-- Response element of `data_client.get_stock_bars(...)`; `timestamp` stands for `bar.timestamp.date()` as rendered. -/
structure Bar where
  timestamp : String
  open_ : String
  high : String
  low : String
  close : String
  volume : String
  deriving DecidableEq

/-- Response shape of order submission / listing. -/
structure Order where
  id : String
  symbol : String
  type : String
  side : String
  qty : String
  status : String
  created_at : String
  submitted_at : String
  limit_price : String
  deriving DecidableEq

/-- Type `alpaca.data.timeframe.TimeFrame` (only `Day` is used). -/
inductive TimeFrame
  | Day
  deriving DecidableEq

/-- Type `alpaca.trading.enums.QueryOrderStatus`. -/
inductive QueryOrderStatus
  | ALL
  | OPEN
  | CLOSED
  deriving DecidableEq

/-- Type `alpaca.trading.enums.OrderSide`. -/
inductive OrderSide
  | BUY
  | SELL
  deriving DecidableEq

/-- Type `alpaca.trading.enums.TimeInForce` (only `DAY` is used). -/
inductive TimeInForce
  | DAY
  deriving DecidableEq

/-- Type `alpaca.data.requests.StockLatestQuoteRequest` as constructed by `get_quote`. -/
structure StockLatestQuoteRequest where
  symbol_or_symbols : String
  feed : String
  deriving DecidableEq

/-- Type `alpaca.data.requests.StockBarsRequest` as constructed by `get_bars`; the field `end_` is the Python keyword argument named end. -/
structure StockBarsRequest where
  symbol_or_symbols : String
  timeframe : TimeFrame
  start : Int
  end_ : Int
  feed : String
  deriving DecidableEq

/-- Type `alpaca.trading.requests.GetOrdersRequest` as constructed by `get_recent_orders`. -/
structure GetOrdersRequest where
  status : QueryOrderStatus
  limit : Nat
  after : Int
  until_ : Int
  deriving DecidableEq

/-- Type `alpaca.trading.requests.MarketOrderRequest` as constructed by `place_market_order`. -/
structure MarketOrderRequest where
  symbol : String
  qty : ℚ
  side : OrderSide
  time_in_force : TimeInForce
  deriving DecidableEq

/-- Type `alpaca.trading.requests.LimitOrderRequest` as constructed by `place_limit_order`. -/
structure LimitOrderRequest where
  symbol : String
  qty : ℚ
  side : OrderSide
  time_in_force : TimeInForce
  limit_price : ℚ
  deriving DecidableEq

/-- Argument of `trading_client.submit_order`, which accepts either request shape. -/
inductive OrderRequest
  | market (r : MarketOrderRequest)
  | limit (r : LimitOrderRequest)
  deriving DecidableEq

/-- Oracle for the `TradingClient` SDK object: each field models one SDK
method, `Except.error` modelling a raised exception. -/
structure TradingClient where
  get_account : Except String Account
  get_all_positions : Except String (List Position)
  get_orders : GetOrdersRequest → Except String (List Order)
  submit_order : OrderRequest → Except String Order
  cancel_order_by_id : String → Except String Unit

/-- Oracle for the `StockHistoricalDataClient` SDK object.  The dict-like
responses are association lists from symbol to payload. -/
structure StockHistoricalDataClient where
  get_stock_latest_quote :
    StockLatestQuoteRequest → Except String (List (String × QuoteData))
  get_stock_bars :
    StockBarsRequest → Except String (List (String × List Bar))

/-- One external API call, with the parameters the handler passed. -/
inductive ApiCall
  | get_account
  | get_all_positions
  | get_stock_latest_quote (r : StockLatestQuoteRequest)
  | get_stock_bars (r : StockBarsRequest)
  | get_orders (r : GetOrdersRequest)
  | submit_order (r : OrderRequest)
  | cancel_order_by_id (order_id : String)
  deriving DecidableEq

/-- Python `timedelta(days=d)` in seconds. -/
def timedelta_days (d : Int) : Int := d * 86400

/-- Python `str.upper()`: character-wise upper-casing. -/
def py_upper (s : String) : String := String.mk (s.data.map Char.toUpper)

/-- Python `str.lower()`: character-wise lower-casing. -/
def py_lower (s : String) : String := String.mk (s.data.map Char.toLower)

/-- Rendering of the f-string in `get_account_info`. -/
def account_info_text (account : Account) : String :=
  "\n        Account Information:\n        - Account ID: " ++ account.id ++
  "\n        - Status: " ++ account.status ++
  "\n        - Cash: $" ++ account.cash ++
  "\n        - Portfolio Value: $" ++ account.portfolio_value ++
  "\n        - Buying Power: $" ++ account.buying_power ++
  "\n        - Equity: $" ++ account.equity ++
  "\n        - Pattern Day Trader: " ++ account.pattern_day_trader ++
  "\n        - Trading Blocked: " ++ account.trading_blocked ++
  "\n        - Account Blocked: " ++ account.account_blocked ++
  "\n        - Created At: " ++ account.created_at ++
  "\n        "

/-- The resource `account://info`. -/
def get_account_info (trading_client : Option TradingClient) :
    String × List ApiCall :=
  match trading_client with
  | none => ("Error: Trading client not initialized", [])
  | some tc =>
    match tc.get_account with
    | Except.ok account => (account_info_text account, [ApiCall.get_account])
    | Except.error e =>
      ("Error fetching account information: " ++ e, [ApiCall.get_account])

/-- Rendering of one position inside `get_all_positions`. -/
def position_text (pos : Position) : String :=
  "\n            Symbol: " ++ pos.symbol ++
  "\n            Quantity: " ++ pos.qty ++
  "\n            Side: " ++ pos.side ++
  "\n            Market Value: $" ++ toString pos.market_value ++
  "\n            Cost Basis: $" ++ pos.cost_basis ++
  "\n            Unrealized P/L: $" ++ toString pos.unrealized_pl ++
  " (" ++ pos.unrealized_plpc ++ "%)" ++
  "\n            Current Price: $" ++ pos.current_price ++
  "\n            -------------------------------------\n            "

/-- The resource `positions://all`. -/
def get_all_positions (trading_client : Option TradingClient) :
    String × List ApiCall :=
  match trading_client with
  | none => ("Error: Trading client not initialized", [])
  | some tc =>
    match tc.get_all_positions with
    | Except.ok positions =>
      if positions.isEmpty then
        ("No open positions found.", [ApiCall.get_all_positions])
      else
        (positions.foldl (fun acc pos => acc ++ position_text pos)
          "Current Positions:\n\n", [ApiCall.get_all_positions])
    | Except.error e =>
      ("Error fetching positions: " ++ e, [ApiCall.get_all_positions])

/-- Rendering of the quote f-string in `get_quote`. -/
def quote_text (symbol : String) (quote_data : QuoteData) : String :=
  "\n        Latest Quote for " ++ symbol ++ ":" ++
  "\n        - Ask Price: $" ++ quote_data.ask_price ++
  "\n        - Ask Size: " ++ quote_data.ask_size ++
  "\n        - Bid Price: $" ++ quote_data.bid_price ++
  "\n        - Bid Size: " ++ quote_data.bid_size ++
  "\n        - Timestamp: " ++ quote_data.timestamp ++
  "\n        "

/-- The resource `market://quote/{symbol}`. -/
def get_quote (data_client : Option StockHistoricalDataClient)
    (symbol : String) : String × List ApiCall :=
  if symbol = "" then ("Error: Symbol parameter is required", [])
  else
    let symbol := py_upper symbol
    match data_client with
    | none => ("Error: Data client not initialized", [])
    | some dc =>
      let request_params : StockLatestQuoteRequest :=
        { symbol_or_symbols := symbol, feed := "iex" }
      match dc.get_stock_latest_quote request_params with
      | Except.ok quote =>
        -- Python: `if not quote or symbol not in quote`; an empty dict has
        -- no keys, so both disjuncts are a failed lookup.
        match quote.lookup symbol with
        | none =>
          ("No quote data found for " ++ symbol,
            [ApiCall.get_stock_latest_quote request_params])
        | some quote_data =>
          (quote_text symbol quote_data,
            [ApiCall.get_stock_latest_quote request_params])
      | Except.error e =>
        ("Error fetching quote for " ++ symbol ++ ": " ++ e,
          [ApiCall.get_stock_latest_quote request_params])

/-- Rendering of one bar inside `get_bars`. -/
def bar_text (bar : Bar) : String :=
  "\n            Date: " ++ bar.timestamp ++
  "\n            Open: $" ++ bar.open_ ++
  "\n            High: $" ++ bar.high ++
  "\n            Low: $" ++ bar.low ++
  "\n            Close: $" ++ bar.close ++
  "\n            Volume: " ++ bar.volume ++
  "\n            -------------------------------------\n            "

/-- The resource `market://bars/{symbol}`.  `now` is `datetime.now()`. -/
def get_bars (data_client : Option StockHistoricalDataClient)
    (symbol : String) (now : Int) : String × List ApiCall :=
  if symbol = "" then ("Error: Symbol parameter is required", [])
  else
    let symbol := py_upper symbol
    match data_client with
    | none => ("Error: Data client not initialized", [])
    | some dc =>
      let end_ := now
      let start := end_ - timedelta_days 7
      let request_params : StockBarsRequest :=
        { symbol_or_symbols := symbol, timeframe := TimeFrame.Day,
          start := start, end_ := end_, feed := "iex" }
      match dc.get_stock_bars request_params with
      | Except.ok bars =>
        match bars.lookup symbol with
        | none =>
          ("No historical data found for " ++ symbol,
            [ApiCall.get_stock_bars request_params])
        | some bars_data =>
          (bars_data.foldl (fun acc bar => acc ++ bar_text bar)
            ("Historical Daily Bars for " ++ symbol ++ " (Last 7 days):\n\n"),
            [ApiCall.get_stock_bars request_params])
      | Except.error e =>
        ("Error fetching bars for " ++ symbol ++ ": " ++ e,
          [ApiCall.get_stock_bars request_params])

/-- Rendering of one order inside `get_recent_orders`. -/
def order_line_text (order : Order) : String :=
  "\n            Order ID: " ++ order.id ++
  "\n            Symbol: " ++ order.symbol ++
  "\n            Type: " ++ order.type ++
  "\n            Side: " ++ order.side ++
  "\n            Qty: " ++ order.qty ++
  "\n            Status: " ++ order.status ++
  "\n            Created At: " ++ order.created_at ++
  "\n            -------------------------------------\n            "

/-- The resource `orders://recent`.  `now` is `datetime.now()`. -/
def get_recent_orders (trading_client : Option TradingClient) (now : Int) :
    String × List ApiCall :=
  match trading_client with
  | none => ("Error: Trading client not initialized", [])
  | some tc =>
    let end_ := now
    let start := end_ - timedelta_days 7
    let request_params : GetOrdersRequest :=
      { status := QueryOrderStatus.ALL, limit := 20,
        after := start, until_ := end_ }
    match tc.get_orders request_params with
    | Except.ok orders =>
      if orders.isEmpty then
        ("No recent orders found.", [ApiCall.get_orders request_params])
      else
        (orders.foldl (fun acc order => acc ++ order_line_text order)
          "Recent Orders (Last 7 days):\n\n",
          [ApiCall.get_orders request_params])
    | Except.error e =>
      ("Error fetching recent orders: " ++ e,
        [ApiCall.get_orders request_params])

/-- The invalid-side validation message shared by both order tools. -/
def invalid_side_msg (side : String) : String :=
  "Error: Invalid side \x27" ++ side ++ "\x27. Must be \x27buy\x27 or \x27sell\x27."

/-- Rendering of the f-string in `place_market_order`. -/
def market_order_text (order : Order) : String :=
  "\n        Market Order Submitted:\n        Order ID: " ++ order.id ++
  "\n        Symbol: " ++ order.symbol ++
  "\n        Side: " ++ order.side ++
  "\n        Qty: " ++ order.qty ++
  "\n        Type: " ++ order.type ++
  "\n        Status: " ++ order.status ++
  "\n        Submitted At: " ++ order.submitted_at ++
  "\n        "

/-- The tool `place_market_order`. -/
def place_market_order (trading_client : Option TradingClient)
    (symbol side : String) (qty : ℚ) : String × List ApiCall :=
  match trading_client with
  | none => ("Error: Trading client not initialized", [])
  | some tc =>
    let symbol := py_upper symbol
    let side := py_lower side
    if ¬ (side = "buy" ∨ side = "sell") then (invalid_side_msg side, [])
    else if qty ≤ 0 then ("Error: Quantity must be greater than 0.", [])
    else
      let order_details : MarketOrderRequest :=
        { symbol := symbol, qty := qty,
          side := if side = "buy" then OrderSide.BUY else OrderSide.SELL,
          time_in_force := TimeInForce.DAY }
      match tc.submit_order (OrderRequest.market order_details) with
      | Except.ok order =>
        (market_order_text order,
          [ApiCall.submit_order (OrderRequest.market order_details)])
      | Except.error e =>
        ("Error placing market order: " ++ e,
          [ApiCall.submit_order (OrderRequest.market order_details)])

/-- Rendering of the f-string in `place_limit_order`. -/
def limit_order_text (order : Order) : String :=
  "\n        Limit Order Submitted:\n        Order ID: " ++ order.id ++
  "\n        Symbol: " ++ order.symbol ++
  "\n        Side: " ++ order.side ++
  "\n        Qty: " ++ order.qty ++
  "\n        Type: " ++ order.type ++
  "\n        Limit Price: $" ++ order.limit_price ++
  "\n        Status: " ++ order.status ++
  "\n        Submitted At: " ++ order.submitted_at ++
  "\n        "

/-- The tool `place_limit_order`. -/
def place_limit_order (trading_client : Option TradingClient)
    (symbol side : String) (qty limit_price : ℚ) : String × List ApiCall :=
  match trading_client with
  | none => ("Error: Trading client not initialized", [])
  | some tc =>
    let symbol := py_upper symbol
    let side := py_lower side
    if ¬ (side = "buy" ∨ side = "sell") then (invalid_side_msg side, [])
    else if qty ≤ 0 then ("Error: Quantity must be greater than 0.", [])
    else if limit_price ≤ 0 then
      ("Error: Limit price must be greater than 0.", [])
    else
      let order_details : LimitOrderRequest :=
        { symbol := symbol, qty := qty,
          side := if side = "buy" then OrderSide.BUY else OrderSide.SELL,
          time_in_force := TimeInForce.DAY, limit_price := limit_price }
      match tc.submit_order (OrderRequest.limit order_details) with
      | Except.ok order =>
        (limit_order_text order,
          [ApiCall.submit_order (OrderRequest.limit order_details)])
      | Except.error e =>
        ("Error placing limit order: " ++ e,
          [ApiCall.submit_order (OrderRequest.limit order_details)])

/-- The tool `cancel_order`. -/
def cancel_order (trading_client : Option TradingClient) (order_id : String) :
    String × List ApiCall :=
  match trading_client with
  | none => ("Error: Trading client not initialized", [])
  | some tc =>
    match tc.cancel_order_by_id order_id with
    | Except.ok _ =>
      ("Order " ++ order_id ++ " cancelled successfully.",
        [ApiCall.cancel_order_by_id order_id])
    | Except.error e =>
      ("Error cancelling order " ++ order_id ++ ": " ++ e,
        [ApiCall.cancel_order_by_id order_id])

/-- Python line `total_pl = sum(float(pos.unrealized_pl) for pos in positions) if positions else 0`. -/
def total_pl (positions : List Position) : ℚ :=
  if positions.isEmpty then 0
  else (positions.map (fun pos => pos.unrealized_pl)).sum

/-- The descending-by-market-value comparison used as the sort key
(`key=lambda p: float(p.market_value), reverse=True`). -/
def mv_ge (a b : Position) : Prop := b.market_value ≤ a.market_value

instance : DecidableRel mv_ge :=
  fun a b => inferInstanceAs (Decidable (b.market_value ≤ a.market_value))

instance : IsTotal Position mv_ge :=
  ⟨fun a b => (le_total a.market_value b.market_value).symm⟩

instance : IsTrans Position mv_ge :=
  ⟨fun _ _ _ hab hbc => le_trans hbc hab⟩

/-- Python line `sorted_positions = sorted(positions, key=lambda p: float(p.market_value), reverse=True)`. -/
def sorted_positions (positions : List Position) : List Position :=
  List.insertionSort mv_ge positions

/-- Python line `top_positions = sorted_positions[:5]`. -/
def top_positions (positions : List Position) : List Position :=
  (sorted_positions positions).take 5

/-- Python format `{total_pl:.2f}`: fixed two-decimal rendering of a
rational (round half up; the difference from float round-half-even is not
load-bearing for any claim). -/
def format_f2 (q : ℚ) : String :=
  let cents : Int := Int.floor (q * 100 + 1 / 2)
  let sign : String := if cents < 0 then "-" else ""
  let n : Nat := cents.natAbs
  let frac : Nat := n % 100
  sign ++ toString (n / 100) ++ "." ++
    (if frac < 10 then "0" else "") ++ toString frac

/-- The part of the portfolio-summary f-string before the rendered total P/L. -/
def summary_head (account : Account) (positions : List Position) : String :=
  "\n        Portfolio Summary:\n        \n        Account Value: $" ++
  account.portfolio_value ++
  "\n        Cash Balance: $" ++ account.cash ++
  "\n        Buying Power: $" ++ account.buying_power ++
  "\n        \n        Number of Positions: " ++ toString positions.length ++
  "\n        Total Unrealized P/L: $"

/-- The part of the portfolio-summary f-string after the rendered total P/L. -/
def summary_tail : String := "\n        \n        Top Positions:\n        "

/-- Rendering of one top position inside `get_portfolio_summary`. -/
def top_position_text (pos : Position) : String :=
  "\n                " ++ pos.symbol ++ ": " ++ pos.qty ++ " shares @ $" ++
  pos.current_price ++
  "\n                Market Value: $" ++ toString pos.market_value ++
  "\n                Unrealized P/L: $" ++ toString pos.unrealized_pl ++
  " (" ++ pos.unrealized_plpc ++ "%)\n                "

/-- The tool `get_portfolio_summary`. -/
def get_portfolio_summary (trading_client : Option TradingClient) :
    String × List ApiCall :=
  match trading_client with
  | none => ("Error: Trading client not initialized", [])
  | some tc =>
    match tc.get_account with
    | Except.error e =>
      ("Error getting portfolio summary: " ++ e, [ApiCall.get_account])
    | Except.ok account =>
      match tc.get_all_positions with
      | Except.error e =>
        ("Error getting portfolio summary: " ++ e,
          [ApiCall.get_account, ApiCall.get_all_positions])
      | Except.ok positions =>
        let summary := summary_head account positions ++
          (format_f2 (total_pl positions) ++ summary_tail)
        if positions.isEmpty then
          (summary ++ "\nNo open positions.",
            [ApiCall.get_account, ApiCall.get_all_positions])
        else
          (summary ++ (top_positions positions).foldl
              (fun acc pos => acc ++ top_position_text pos) "",
            [ApiCall.get_account, ApiCall.get_all_positions])

/-- The pair of module-level client globals. -/
structure ServerState where
  trading_client : Option TradingClient
  data_client : Option StockHistoricalDataClient

/-- Module-level state after `trading_client = None; data_client = None`. -/
def initial_state : ServerState :=
  { trading_client := none, data_client := none }

/-- Outcome of one run of `alpaca_lifespan`: the state published while the
server serves requests (between `yield` and shutdown, `none` when startup
failed), the state after the context manager exits, the exception carried
out of startup if any, and how many SDK client constructors ran. -/
structure LifespanResult where
  served : Option ServerState
  final : ServerState
  startup_error : Option String
  constructions : Nat

/-- Python truthiness test `not x` for an `os.getenv` result. -/
def falsyStr : Option String → Bool
  | none => true
  | some s => s.isEmpty

/-- The async context manager `alpaca_lifespan`.  `key`/`secret` are the
`ALPACA_API_KEY`/`ALPACA_API_SECRET` environment values; `mkT`/`mkD` are
the outcomes of the two SDK client constructors.  The credential check
precedes the `try`, so its `raise ValueError` leaves the module-level
globals untouched (they are still both `None`); every path through the
`try` runs the `finally`, which sets both globals to `None`. -/
def alpaca_lifespan (key secret : Option String)
    (mkT : Except String TradingClient)
    (mkD : Except String StockHistoricalDataClient) : LifespanResult :=
  if falsyStr key || falsyStr secret then
    { served := none, final := initial_state,
      startup_error := some "Alpaca API credentials not found",
      constructions := 0 }
  else
    match mkT with
    | Except.error e =>
      { served := none,
        final := { trading_client := none, data_client := none },
        startup_error := some e, constructions := 1 }
    | Except.ok t =>
      match mkD with
      | Except.error e =>
        { served := none,
          final := { trading_client := none, data_client := none },
          startup_error := some e, constructions := 2 }
      | Except.ok d =>
        { served := some { trading_client := some t, data_client := some d },
          final := { trading_client := none, data_client := none },
          startup_error := none, constructions := 2 }

/-- Invariant of the claim: the two handles are both present or both absent. -/
def handles_inv (s : ServerState) : Prop :=
  (s.trading_client.isSome = true ∧ s.data_client.isSome = true) ∨
  (s.trading_client = none ∧ s.data_client = none)

/-- Substring test on character lists, used to state claims about error
message contents. -/
def charsContain (pat : List Char) : List Char → Bool
  | [] => pat.isEmpty
  | c :: rest => pat.isPrefixOf (c :: rest) || charsContain pat rest

/-- Substring test on strings. -/
def strContains (s pat : String) : Bool :=
  charsContain pat.data s.data

theorem string_append_assoc (a b c : String) :
    a ++ b ++ c = a ++ (b ++ c) := by
  cases a with
  | mk da =>
    cases b with
    | mk db =>
      cases c with
      | mk dc =>
        show String.mk (da ++ db ++ dc) = String.mk (da ++ (db ++ dc))
        rw [List.append_assoc]

/-- Sample account payload used in concrete witnesses. -/
def sampleAccount : Account :=
  { id := "acct1", status := "ACTIVE", cash := "1000",
    portfolio_value := "2000", buying_power := "4000", equity := "2000",
    pattern_day_trader := "False", trading_blocked := "False",
    account_blocked := "False", created_at := "2024-01-01" }

/-- Sample position payload used in concrete witnesses. -/
def samplePosition : Position :=
  { symbol := "AAPL", qty := "10", side := "long", market_value := 1500,
    cost_basis := "1400", unrealized_pl := 100, unrealized_plpc := "7.1",
    current_price := "150" }

/-- Sample quote payload used in concrete witnesses. -/
def sampleQuote : QuoteData :=
  { ask_price := "101", ask_size := "2", bid_price := "100",
    bid_size := "3", timestamp := "2024-01-02" }

/-- Sample bar payload used in concrete witnesses. -/
def sampleBar : Bar :=
  { timestamp := "2024-01-02", open_ := "1", high := "2", low := "0",
    close := "1", volume := "10" }

/-- Sample order payload used in concrete witnesses. -/
def sampleOrder : Order :=
  { id := "oid1", symbol := "AAPL", type := "market", side := "buy",
    qty := "1", status := "filled", created_at := "2024-01-02",
    submitted_at := "2024-01-02", limit_price := "150" }

/-- Trading client whose every call succeeds. -/
def okTC : TradingClient :=
  { get_account := Except.ok sampleAccount,
    get_all_positions := Except.ok [samplePosition],
    get_orders := fun _ => Except.ok [sampleOrder],
    submit_order := fun _ => Except.ok sampleOrder,
    cancel_order_by_id := fun _ => Except.ok () }

/-- Trading client whose every call raises. -/
def errTC : TradingClient :=
  { get_account := Except.error "boom",
    get_all_positions := Except.error "boom",
    get_orders := fun _ => Except.error "boom",
    submit_order := fun _ => Except.error "boom",
    cancel_order_by_id := fun _ => Except.error "boom" }

/-- Trading client whose account call succeeds but position listing raises. -/
def mixedTC : TradingClient :=
  { get_account := Except.ok sampleAccount,
    get_all_positions := Except.error "boom",
    get_orders := fun _ => Except.error "boom",
    submit_order := fun _ => Except.error "boom",
    cancel_order_by_id := fun _ => Except.error "boom" }

/-- Trading client holding no positions. -/
def emptyPosTC : TradingClient :=
  { get_account := Except.ok sampleAccount,
    get_all_positions := Except.ok [],
    get_orders := fun _ => Except.ok [],
    submit_order := fun _ => Except.ok sampleOrder,
    cancel_order_by_id := fun _ => Except.ok () }

/-- Data client answering every request with the requested symbol. -/
def okDC : StockHistoricalDataClient :=
  { get_stock_latest_quote := fun r => Except.ok [(r.symbol_or_symbols, sampleQuote)],
    get_stock_bars := fun r => Except.ok [(r.symbol_or_symbols, [sampleBar])] }

/-- Data client whose every call raises. -/
def errDC : StockHistoricalDataClient :=
  { get_stock_latest_quote := fun _ => Except.error "boom",
    get_stock_bars := fun _ => Except.error "boom" }

/-- Data client answering every request with an empty dict. -/
def emptyDC : StockHistoricalDataClient :=
  { get_stock_latest_quote := fun _ => Except.ok [],
    get_stock_bars := fun _ => Except.ok [] }

theorem quote_log (dc : StockHistoricalDataClient) (symbol : String)
    (h : symbol ≠ "") :
    (get_quote (some dc) symbol).2 =
      [ApiCall.get_stock_latest_quote
        { symbol_or_symbols := py_upper symbol, feed := "iex" }] := by
  simp only [get_quote, if_neg h]
  cases hres : dc.get_stock_latest_quote
      { symbol_or_symbols := py_upper symbol, feed := "iex" } with
  | ok q =>
    cases hlook : q.lookup (py_upper symbol) with
    | none => simp [hres, hlook]
    | some qd => simp [hres, hlook]
  | error e => simp [hres]

theorem bars_log (dc : StockHistoricalDataClient) (symbol : String) (now : Int)
    (h : symbol ≠ "") :
    (get_bars (some dc) symbol now).2 =
      [ApiCall.get_stock_bars
        { symbol_or_symbols := py_upper symbol, timeframe := TimeFrame.Day,
          start := now - timedelta_days 7, end_ := now, feed := "iex" }] := by
  simp only [get_bars, if_neg h]
  cases hres : dc.get_stock_bars
      { symbol_or_symbols := py_upper symbol, timeframe := TimeFrame.Day,
        start := now - timedelta_days 7, end_ := now, feed := "iex" } with
  | ok bars =>
    cases hlook : bars.lookup (py_upper symbol) with
    | none => simp [hres, hlook]
    | some bd => simp [hres, hlook]
  | error e => simp [hres]

theorem orders_log (tc : TradingClient) (now : Int) :
    (get_recent_orders (some tc) now).2 =
      [ApiCall.get_orders
        { status := QueryOrderStatus.ALL, limit := 20,
          after := now - timedelta_days 7, until_ := now }] := by
  simp only [get_recent_orders]
  cases hres : tc.get_orders
      { status := QueryOrderStatus.ALL, limit := 20,
        after := now - timedelta_days 7, until_ := now } with
  | ok orders =>
    cases horders : orders.isEmpty with
    | true => simp [hres, horders]
    | false => simp [hres, horders]
  | error e => simp [hres]

theorem account_log (tc : TradingClient) :
    (get_account_info (some tc)).2 = [ApiCall.get_account] := by
  simp only [get_account_info]
  cases hres : tc.get_account with
  | ok a => simp [hres]
  | error e => simp [hres]

theorem positions_log (tc : TradingClient) :
    (get_all_positions (some tc)).2 = [ApiCall.get_all_positions] := by
  simp only [get_all_positions]
  cases hres : tc.get_all_positions with
  | ok ps =>
    cases hemp : ps.isEmpty with
    | true => simp [hres, hemp]
    | false => simp [hres, hemp]
  | error e => simp [hres]

theorem append_colon_space (a e : String) :
    a ++ ": " ++ e = a ++ ":" ++ (" " ++ e) := by
  rw [string_append_assoc a ": " e, string_append_assoc a ":" (" " ++ e)]
  congr 1

/-- C2 counterexample: with the data client unset and an empty symbol,
`get_quote` returns the empty-symbol error, which does not contain the
substring "not initialized", refuting the claim that every handler invoked
with its client unset returns a string containing "not initialized". -/
theorem uninitialized_message_counterexample :
    (get_quote none "").1 = "Error: Symbol parameter is required" ∧
    (get_quote none "").2 = [] ∧
    strContains "Error: Symbol parameter is required" "not initialized" = false := by
  refine ⟨rfl, rfl, by decide⟩

/-- C2 (amended): for every handler invoked with the relevant client handle
unset, the result is an error string and no external API call is logged;
the string contains "not initialized", except that `get_quote`/`get_bars`
invoked with an empty symbol return the empty-symbol error instead. -/
theorem uninitialized_clients_short_circuit
    (symbol side order_id : String) (qty limit_price : ℚ) (now : Int) :
    get_account_info none = ("Error: Trading client not initialized", []) ∧
    get_all_positions none = ("Error: Trading client not initialized", []) ∧
    get_recent_orders none now = ("Error: Trading client not initialized", []) ∧
    place_market_order none symbol side qty =
      ("Error: Trading client not initialized", []) ∧
    place_limit_order none symbol side qty limit_price =
      ("Error: Trading client not initialized", []) ∧
    cancel_order none order_id = ("Error: Trading client not initialized", []) ∧
    get_portfolio_summary none = ("Error: Trading client not initialized", []) ∧
    (symbol ≠ "" →
      get_quote none symbol = ("Error: Data client not initialized", []) ∧
      get_bars none symbol now = ("Error: Data client not initialized", [])) ∧
    (symbol = "" →
      get_quote none symbol = ("Error: Symbol parameter is required", []) ∧
      get_bars none symbol now = ("Error: Symbol parameter is required", [])) ∧
    strContains "Error: Trading client not initialized" "not initialized" = true ∧
    strContains "Error: Data client not initialized" "not initialized" = true := by
  refine ⟨rfl, rfl, rfl, rfl, rfl, rfl, rfl, ?_, ?_, by decide, by decide⟩
  · intro h
    constructor
    · simp [get_quote, h]
    · simp [get_bars, h]
  · intro h
    subst h
    exact ⟨rfl, rfl⟩

/-- C2 witness: the amended claim evaluated at concrete inputs. -/
theorem uninitialized_clients_short_circuit_witness :
    get_quote none "aapl" = ("Error: Data client not initialized", []) ∧
    get_quote none "" = ("Error: Symbol parameter is required", []) := by
  have h1 := uninitialized_clients_short_circuit "aapl" "buy" "123" 1 1 0
  have h2 := uninitialized_clients_short_circuit "" "buy" "123" 1 1 0
  exact ⟨(h1.2.2.2.2.2.2.2.1 (by decide)).1, (h2.2.2.2.2.2.2.2.2.1 rfl).1⟩

/-- C9: with an initialized trading client, `cancel_order` returns the fixed
confirmation string when the external cancellation succeeds, and when it
faults returns the error string, which begins with
"Error cancelling order {order_id}:". -/
theorem cancel_order_responses (tc : TradingClient) (order_id e : String) :
    (tc.cancel_order_by_id order_id = Except.ok () →
      (cancel_order (some tc) order_id).1 =
        "Order " ++ order_id ++ " cancelled successfully.") ∧
    (tc.cancel_order_by_id order_id = Except.error e →
      (cancel_order (some tc) order_id).1 =
        "Error cancelling order " ++ order_id ++ ": " ++ e ∧
      ∃ rest, (cancel_order (some tc) order_id).1 =
        "Error cancelling order " ++ order_id ++ ":" ++ rest) := by
  constructor
  · intro h
    simp [cancel_order, h]
  · intro h
    have heq : (cancel_order (some tc) order_id).1 =
        "Error cancelling order " ++ order_id ++ ": " ++ e := by
      simp [cancel_order, h]
    refine ⟨heq, " " ++ e, ?_⟩
    rw [heq]
    exact append_colon_space ("Error cancelling order " ++ order_id) e

/-- C9 witness: the spec scenario `cancel_order("123")` under a fault, and a
successful cancellation, at concrete clients. -/
theorem cancel_order_responses_witness :
    (cancel_order (some okTC) "123").1 =
      "Order " ++ "123" ++ " cancelled successfully." ∧
    (cancel_order (some errTC) "123").1 =
      "Error cancelling order " ++ "123" ++ ": " ++ "boom" ∧
    ∃ rest, (cancel_order (some errTC) "123").1 =
      "Error cancelling order " ++ "123" ++ ":" ++ rest := by
  have h1 := cancel_order_responses okTC "123" "boom"
  have h2 := cancel_order_responses errTC "123" "boom"
  exact ⟨h1.1 rfl, (h2.2 rfl).1, (h2.2 rfl).2⟩

/-- C6: if either credential is missing or empty at startup, the lifecycle
manager raises the configuration error, constructs no client, and the
server never serves. -/
theorem missing_credentials_fatal (key secret : Option String)
    (mkT : Except String TradingClient)
    (mkD : Except String StockHistoricalDataClient)
    (h : falsyStr key = true ∨ falsyStr secret = true) :
    (alpaca_lifespan key secret mkT mkD).startup_error =
      some "Alpaca API credentials not found" ∧
    (alpaca_lifespan key secret mkT mkD).constructions = 0 ∧
    (alpaca_lifespan key secret mkT mkD).served = none := by
  have hcond : (falsyStr key || falsyStr secret) = true := by
    rcases h with h | h <;> simp [h]
  refine ⟨?_, ?_, ?_⟩ <;> simp [alpaca_lifespan, hcond]

/-- C6 witness: a missing API key aborts startup at concrete inputs. -/
theorem missing_credentials_fatal_witness :
    (alpaca_lifespan none (some "s") (Except.ok okTC)
      (Except.ok okDC)).startup_error =
      some "Alpaca API credentials not found" ∧
    (alpaca_lifespan none (some "s") (Except.ok okTC)
      (Except.ok okDC)).constructions = 0 ∧
    (alpaca_lifespan none (some "s") (Except.ok okTC)
      (Except.ok okDC)).served = none :=
  missing_credentials_fatal none (some "s") (Except.ok okTC)
    (Except.ok okDC) (Or.inl rfl)

/-- C5: in every state the lifecycle publishes, the two client handles are
both present (while the server runs after a successful startup) or both
absent (initially, and after any shutdown, including one triggered by a
startup fault); handlers invoked on the post-shutdown state observe the
uninitialized error. -/
theorem lifecycle_handle_invariant (key secret : Option String)
    (mkT : Except String TradingClient)
    (mkD : Except String StockHistoricalDataClient) :
    handles_inv initial_state ∧
    (∀ s, (alpaca_lifespan key secret mkT mkD).served = some s →
      s.trading_client.isSome = true ∧ s.data_client.isSome = true) ∧
    (alpaca_lifespan key secret mkT mkD).final.trading_client = none ∧
    (alpaca_lifespan key secret mkT mkD).final.data_client = none ∧
    handles_inv (alpaca_lifespan key secret mkT mkD).final ∧
    (get_account_info
      (alpaca_lifespan key secret mkT mkD).final.trading_client).1 =
      "Error: Trading client not initialized" := by
  refine ⟨Or.inr ⟨rfl, rfl⟩, ?_⟩
  cases hcond : falsyStr key || falsyStr secret with
  | true =>
    refine ⟨?_, ?_, ?_, ?_, ?_⟩ <;>
      simp [alpaca_lifespan, hcond, initial_state, handles_inv,
        get_account_info]
  | false =>
    cases mkT with
    | error e =>
      refine ⟨?_, ?_, ?_, ?_, ?_⟩ <;>
        simp [alpaca_lifespan, hcond, handles_inv, get_account_info]
    | ok t =>
      cases mkD with
      | error e =>
        refine ⟨?_, ?_, ?_, ?_, ?_⟩ <;>
          simp [alpaca_lifespan, hcond, handles_inv, get_account_info]
      | ok d =>
        refine ⟨?_, ?_, ?_, ?_, ?_⟩ <;>
          simp [alpaca_lifespan, hcond, handles_inv, get_account_info]

/-- C5 witness: a successful startup publishes both handles. -/
theorem lifecycle_handle_invariant_witness :
    (ServerState.mk (some okTC) (some okDC)).trading_client.isSome = true ∧
    (ServerState.mk (some okTC) (some okDC)).data_client.isSome = true :=
  (lifecycle_handle_invariant (some "k") (some "s") (Except.ok okTC)
    (Except.ok okDC)).2.1 (ServerState.mk (some okTC) (some okDC)) rfl

/-- C7: `get_quote` and `get_bars` upper-case the symbol before issuing the
external request (the single logged request carries the upper-cased
symbol), and an empty symbol is rejected with a descriptive error string,
without any external call, for any client state. -/
theorem symbol_normalization (dc : StockHistoricalDataClient)
    (data_client : Option StockHistoricalDataClient) (symbol : String)
    (now : Int) :
    (symbol ≠ "" →
      (get_quote (some dc) symbol).2 =
        [ApiCall.get_stock_latest_quote
          { symbol_or_symbols := py_upper symbol, feed := "iex" }] ∧
      (get_bars (some dc) symbol now).2 =
        [ApiCall.get_stock_bars
          { symbol_or_symbols := py_upper symbol, timeframe := TimeFrame.Day,
            start := now - timedelta_days 7, end_ := now, feed := "iex" }]) ∧
    py_upper "aapl" = "AAPL" ∧
    (symbol = "" →
      get_quote data_client symbol =
        ("Error: Symbol parameter is required", []) ∧
      get_bars data_client symbol now =
        ("Error: Symbol parameter is required", [])) := by
  refine ⟨?_, rfl, ?_⟩
  · intro h
    exact ⟨quote_log dc symbol h, bars_log dc symbol now h⟩
  · intro h
    subst h
    exact ⟨rfl, rfl⟩

/-- C7 witness: normalization and the empty-symbol rejection at concrete
inputs. -/
theorem symbol_normalization_witness :
    (get_quote (some okDC) "aapl").2 =
      [ApiCall.get_stock_latest_quote
        { symbol_or_symbols := py_upper "aapl", feed := "iex" }] ∧
    get_quote (some okDC) "" = ("Error: Symbol parameter is required", []) := by
  have h1 := symbol_normalization okDC (some okDC) "aapl" 0
  have h2 := symbol_normalization okDC (some okDC) "" 0
  exact ⟨(h1.1 (by decide)).1, (h2.2.2 rfl).1⟩

/-- C8: each read-only handler issues exactly one external request per
invocation; the bars request spans now minus 7 days to now at daily
resolution, and the recent-orders request spans the same window with
status filter ALL and limit 20. -/
theorem single_request_fixed_params (tc : TradingClient)
    (dc : StockHistoricalDataClient) (symbol : String) (now : Int)
    (h : symbol ≠ "") :
    (get_account_info (some tc)).2 = [ApiCall.get_account] ∧
    (get_all_positions (some tc)).2 = [ApiCall.get_all_positions] ∧
    (get_quote (some dc) symbol).2 =
      [ApiCall.get_stock_latest_quote
        { symbol_or_symbols := py_upper symbol, feed := "iex" }] ∧
    (get_bars (some dc) symbol now).2 =
      [ApiCall.get_stock_bars
        { symbol_or_symbols := py_upper symbol, timeframe := TimeFrame.Day,
          start := now - timedelta_days 7, end_ := now, feed := "iex" }] ∧
    (get_recent_orders (some tc) now).2 =
      [ApiCall.get_orders
        { status := QueryOrderStatus.ALL, limit := 20,
          after := now - timedelta_days 7, until_ := now }] :=
  ⟨account_log tc, positions_log tc, quote_log dc symbol h,
    bars_log dc symbol now h, orders_log tc now⟩

/-- C8 witness: the request logs at concrete clients and time. -/
theorem single_request_fixed_params_witness :
    (get_bars (some okDC) "aapl" 1000000).2 =
      [ApiCall.get_stock_bars
        { symbol_or_symbols := py_upper "aapl", timeframe := TimeFrame.Day,
          start := 1000000 - timedelta_days 7, end_ := 1000000,
          feed := "iex" }] ∧
    (get_recent_orders (some okTC) 1000000).2 =
      [ApiCall.get_orders
        { status := QueryOrderStatus.ALL, limit := 20,
          after := 1000000 - timedelta_days 7, until_ := 1000000 }] := by
  have h := single_request_fixed_params okTC okDC "aapl" 1000000 (by decide)
  exact ⟨h.2.2.2.1, h.2.2.2.2⟩

/-- C1: for every handler, a fault raised by the external API call is
caught and converted to the handler-specific descriptive error string;
handlers are total functions into strings, so no invocation raises past
its boundary. -/
theorem handler_faults_caught (e : String) (tc : TradingClient)
    (dc : StockHistoricalDataClient) (symbol side order_id : String)
    (qty limit_price : ℚ) (now : Int) (account : Account) :
    (tc.get_account = Except.error e →
      (get_account_info (some tc)).1 =
        "Error fetching account information: " ++ e) ∧
    (tc.get_all_positions = Except.error e →
      (get_all_positions (some tc)).1 = "Error fetching positions: " ++ e) ∧
    (symbol ≠ "" → (∀ r, dc.get_stock_latest_quote r = Except.error e) →
      (get_quote (some dc) symbol).1 =
        "Error fetching quote for " ++ py_upper symbol ++ ": " ++ e) ∧
    (symbol ≠ "" → (∀ r, dc.get_stock_bars r = Except.error e) →
      (get_bars (some dc) symbol now).1 =
        "Error fetching bars for " ++ py_upper symbol ++ ": " ++ e) ∧
    ((∀ r, tc.get_orders r = Except.error e) →
      (get_recent_orders (some tc) now).1 =
        "Error fetching recent orders: " ++ e) ∧
    ((py_lower side = "buy" ∨ py_lower side = "sell") → 0 < qty →
      (∀ r, tc.submit_order r = Except.error e) →
      (place_market_order (some tc) symbol side qty).1 =
        "Error placing market order: " ++ e) ∧
    ((py_lower side = "buy" ∨ py_lower side = "sell") → 0 < qty →
      0 < limit_price → (∀ r, tc.submit_order r = Except.error e) →
      (place_limit_order (some tc) symbol side qty limit_price).1 =
        "Error placing limit order: " ++ e) ∧
    (tc.cancel_order_by_id order_id = Except.error e →
      (cancel_order (some tc) order_id).1 =
        "Error cancelling order " ++ order_id ++ ": " ++ e) ∧
    (tc.get_account = Except.error e →
      (get_portfolio_summary (some tc)).1 =
        "Error getting portfolio summary: " ++ e) ∧
    (tc.get_account = Except.ok account →
      tc.get_all_positions = Except.error e →
      (get_portfolio_summary (some tc)).1 =
        "Error getting portfolio summary: " ++ e) := by
  refine ⟨?_, ?_, ?_, ?_, ?_, ?_, ?_, ?_, ?_, ?_⟩
  · intro h
    simp [get_account_info, h]
  · intro h
    simp [get_all_positions, h]
  · intro hsym hq
    simp [get_quote, hsym, hq]
  · intro hsym hb
    simp [get_bars, hsym, hb]
  · intro ho
    simp [get_recent_orders, ho]
  · intro hside hqty hsub
    rcases hside with h | h <;>
      simp [place_market_order, h, not_le.mpr hqty, hsub]
  · intro hside hqty hlp hsub
    rcases hside with h | h <;>
      simp [place_limit_order, h, not_le.mpr hqty, not_le.mpr hlp, hsub]
  · intro h
    simp [cancel_order, h]
  · intro h
    simp [get_portfolio_summary, h]
  · intro ha hp
    simp [get_portfolio_summary, ha, hp]

/-- C1 witness: the fault conversions at concrete erroring clients. -/
theorem handler_faults_caught_witness :
    (get_account_info (some errTC)).1 =
      "Error fetching account information: " ++ "boom" ∧
    (get_all_positions (some errTC)).1 =
      "Error fetching positions: " ++ "boom" ∧
    (get_quote (some errDC) "aapl").1 =
      "Error fetching quote for " ++ py_upper "aapl" ++ ": " ++ "boom" ∧
    (get_bars (some errDC) "aapl" 0).1 =
      "Error fetching bars for " ++ py_upper "aapl" ++ ": " ++ "boom" ∧
    (get_recent_orders (some errTC) 0).1 =
      "Error fetching recent orders: " ++ "boom" ∧
    (place_market_order (some errTC) "aapl" "BUY" 1).1 =
      "Error placing market order: " ++ "boom" ∧
    (place_limit_order (some errTC) "aapl" "BUY" 1 150).1 =
      "Error placing limit order: " ++ "boom" ∧
    (cancel_order (some errTC) "123").1 =
      "Error cancelling order " ++ "123" ++ ": " ++ "boom" ∧
    (get_portfolio_summary (some errTC)).1 =
      "Error getting portfolio summary: " ++ "boom" ∧
    (get_portfolio_summary (some mixedTC)).1 =
      "Error getting portfolio summary: " ++ "boom" := by
  have h1 := handler_faults_caught "boom" errTC errDC "aapl" "BUY" "123"
    1 150 0 sampleAccount
  have h2 := handler_faults_caught "boom" mixedTC errDC "aapl" "BUY" "123"
    1 150 0 sampleAccount
  refine ⟨h1.1 rfl, h1.2.1 rfl, h1.2.2.1 (by decide) (fun _ => rfl),
    h1.2.2.2.1 (by decide) (fun _ => rfl), h1.2.2.2.2.1 (fun _ => rfl),
    h1.2.2.2.2.2.1 (Or.inl (by decide)) (by decide) (fun _ => rfl),
    h1.2.2.2.2.2.2.1 (Or.inl (by decide)) (by decide) (by decide)
      (fun _ => rfl),
    h1.2.2.2.2.2.2.2.1 rfl, h1.2.2.2.2.2.2.2.2.1 rfl,
    h2.2.2.2.2.2.2.2.2.2 rfl rfl⟩

/-- C10: with a non-empty symbol and an initialized data client, a
successful external response that is empty or lacks the upper-cased symbol
yields the fixed no-data message of the respective handler. -/
theorem no_data_messages (dc : StockHistoricalDataClient) (symbol : String)
    (now : Int) (q : List (String × QuoteData))
    (bset : List (String × List Bar)) :
    (symbol ≠ "" →
      dc.get_stock_latest_quote
        { symbol_or_symbols := py_upper symbol, feed := "iex" } =
        Except.ok q →
      (q = [] ∨ q.lookup (py_upper symbol) = none) →
      (get_quote (some dc) symbol).1 =
        "No quote data found for " ++ py_upper symbol) ∧
    (symbol ≠ "" →
      dc.get_stock_bars
        { symbol_or_symbols := py_upper symbol, timeframe := TimeFrame.Day,
          start := now - timedelta_days 7, end_ := now, feed := "iex" } =
        Except.ok bset →
      (bset = [] ∨ bset.lookup (py_upper symbol) = none) →
      (get_bars (some dc) symbol now).1 =
        "No historical data found for " ++ py_upper symbol) := by
  constructor
  · intro hsym hres hemp
    have hlook : q.lookup (py_upper symbol) = none := by
      rcases hemp with rfl | h2
      · rfl
      · exact h2
    simp [get_quote, hsym, hres, hlook]
  · intro hsym hres hemp
    have hlook : bset.lookup (py_upper symbol) = none := by
      rcases hemp with rfl | h2
      · rfl
      · exact h2
    simp [get_bars, hsym, hres, hlook]

/-- C10 witness: a data client answering with an empty dict produces the
no-data messages at a concrete symbol. -/
theorem no_data_messages_witness :
    (get_quote (some emptyDC) "aapl").1 =
      "No quote data found for " ++ py_upper "aapl" ∧
    (get_bars (some emptyDC) "aapl" 0).1 =
      "No historical data found for " ++ py_upper "aapl" := by
  have h := no_data_messages emptyDC "aapl" 0 [] []
  exact ⟨h.1 (by decide) rfl (Or.inl rfl), h.2 (by decide) rfl (Or.inl rfl)⟩

/-- C3: with an initialized trading client, an invalid side (outside
buy/sell case-insensitively), a non-positive quantity, or (for limit
orders) a non-positive limit price each yield an error string with no
order submitted: the call log stays empty. -/
theorem order_validation_guards (tc : TradingClient) (symbol side : String)
    (qty limit_price : ℚ) :
    ((py_lower side ≠ "buy" ∧ py_lower side ≠ "sell") →
      place_market_order (some tc) symbol side qty =
        (invalid_side_msg (py_lower side), []) ∧
      place_limit_order (some tc) symbol side qty limit_price =
        (invalid_side_msg (py_lower side), [])) ∧
    (qty ≤ 0 →
      ((place_market_order (some tc) symbol side qty).1 =
          invalid_side_msg (py_lower side) ∨
        (place_market_order (some tc) symbol side qty).1 =
          "Error: Quantity must be greater than 0.") ∧
      (place_market_order (some tc) symbol side qty).2 = [] ∧
      ((place_limit_order (some tc) symbol side qty limit_price).1 =
          invalid_side_msg (py_lower side) ∨
        (place_limit_order (some tc) symbol side qty limit_price).1 =
          "Error: Quantity must be greater than 0.") ∧
      (place_limit_order (some tc) symbol side qty limit_price).2 = []) ∧
    (limit_price ≤ 0 →
      ((place_limit_order (some tc) symbol side qty limit_price).1 =
          invalid_side_msg (py_lower side) ∨
        (place_limit_order (some tc) symbol side qty limit_price).1 =
          "Error: Quantity must be greater than 0." ∨
        (place_limit_order (some tc) symbol side qty limit_price).1 =
          "Error: Limit price must be greater than 0.") ∧
      (place_limit_order (some tc) symbol side qty limit_price).2 = []) := by
  refine ⟨?_, ?_, ?_⟩
  · intro h
    constructor
    · simp [place_market_order, h.1, h.2]
    · simp [place_limit_order, h.1, h.2]
  · intro hq
    by_cases hb : py_lower side = "buy"
    · refine ⟨Or.inr ?_, ?_, Or.inr ?_, ?_⟩ <;>
        simp [place_market_order, place_limit_order, hb, hq]
    · by_cases hs : py_lower side = "sell"
      · refine ⟨Or.inr ?_, ?_, Or.inr ?_, ?_⟩ <;>
          simp [place_market_order, place_limit_order, hs, hq]
      · refine ⟨Or.inl ?_, ?_, Or.inl ?_, ?_⟩ <;>
          simp [place_market_order, place_limit_order, hb, hs]
  · intro hlp
    by_cases hb : py_lower side = "buy"
    · by_cases hq : qty ≤ 0
      · refine ⟨Or.inr (Or.inl ?_), ?_⟩ <;>
          simp [place_limit_order, hb, hq]
      · refine ⟨Or.inr (Or.inr ?_), ?_⟩ <;>
          simp [place_limit_order, hb, hq, hlp]
    · by_cases hs : py_lower side = "sell"
      · by_cases hq : qty ≤ 0
        · refine ⟨Or.inr (Or.inl ?_), ?_⟩ <;>
            simp [place_limit_order, hs, hq]
        · refine ⟨Or.inr (Or.inr ?_), ?_⟩ <;>
            simp [place_limit_order, hs, hq, hlp]
      · refine ⟨Or.inl ?_, ?_⟩ <;> simp [place_limit_order, hb, hs]

/-- C3 witness: an invalid side, a zero quantity, and a zero limit price at
concrete inputs. -/
theorem order_validation_guards_witness :
    place_market_order (some okTC) "AAPL" "hold" 1 =
      (invalid_side_msg (py_lower "hold"), []) ∧
    ((place_market_order (some okTC) "AAPL" "buy" 0).1 =
        invalid_side_msg (py_lower "buy") ∨
      (place_market_order (some okTC) "AAPL" "buy" 0).1 =
        "Error: Quantity must be greater than 0.") ∧
    (place_market_order (some okTC) "AAPL" "buy" 0).2 = [] ∧
    ((place_limit_order (some okTC) "AAPL" "buy" 1 0).1 =
        invalid_side_msg (py_lower "buy") ∨
      (place_limit_order (some okTC) "AAPL" "buy" 1 0).1 =
        "Error: Quantity must be greater than 0." ∨
      (place_limit_order (some okTC) "AAPL" "buy" 1 0).1 =
        "Error: Limit price must be greater than 0.") ∧
    (place_limit_order (some okTC) "AAPL" "buy" 1 0).2 = [] := by
  have h1 := order_validation_guards okTC "AAPL" "hold" 1 1
  have h2 := order_validation_guards okTC "AAPL" "buy" 0 1
  have h3 := order_validation_guards okTC "AAPL" "buy" 1 0
  exact ⟨(h1.1 (by decide)).1, (h2.2.1 (by decide)).1,
    (h2.2.1 (by decide)).2.1, (h3.2.2 (by decide)).1,
    (h3.2.2 (by decide)).2⟩

/-- C4: with the external calls succeeding, the reported total unrealized
P/L is the sum over all positions (0 when there are none, in which case the
summary states there are no open positions), and the rendered top-positions
list is sorted descending by market value with at most 5 entries. -/
theorem portfolio_summary_correct (tc : TradingClient) (account : Account)
    (positions : List Position)
    (ha : tc.get_account = Except.ok account)
    (hp : tc.get_all_positions = Except.ok positions) :
    total_pl positions =
      (positions.map (fun pos => pos.unrealized_pl)).sum ∧
    (positions = [] → total_pl positions = 0 ∧
      ∃ pre, (get_portfolio_summary (some tc)).1 =
        pre ++ "\nNo open positions.") ∧
    (∃ a b, (get_portfolio_summary (some tc)).1 =
      a ++ (format_f2 ((positions.map (fun pos => pos.unrealized_pl)).sum)
        ++ b)) ∧
    List.Sorted mv_ge (top_positions positions) ∧
    (top_positions positions).length ≤ 5 := by
  have ht : total_pl positions =
      (positions.map (fun pos => pos.unrealized_pl)).sum := by
    cases positions <;> simp [total_pl]
  refine ⟨ht, ?_, ?_, ?_, ?_⟩
  · rintro rfl
    refine ⟨by simp [total_pl], ?_⟩
    exact ⟨summary_head account [] ++
      (format_f2 (total_pl []) ++ summary_tail),
      by simp [get_portfolio_summary, ha, hp]⟩
  · rw [← ht]
    cases hemp : positions.isEmpty with
    | true =>
      refine ⟨summary_head account positions,
        summary_tail ++ "\nNo open positions.", ?_⟩
      simp [get_portfolio_summary, ha, hp, hemp, string_append_assoc]
    | false =>
      refine ⟨summary_head account positions,
        summary_tail ++ (top_positions positions).foldl
          (fun acc pos => acc ++ top_position_text pos) "", ?_⟩
      simp [get_portfolio_summary, ha, hp, hemp, string_append_assoc]
  · exact List.Pairwise.sublist (List.take_sublist 5 _)
      (List.sorted_insertionSort mv_ge positions)
  · exact List.length_take_le 5 _

/-- C4 witness: the zero-position summary and the top-positions shape at
concrete clients. -/
theorem portfolio_summary_correct_witness :
    total_pl [] = 0 ∧
    (∃ pre, (get_portfolio_summary (some emptyPosTC)).1 =
      pre ++ "\nNo open positions.") ∧
    List.Sorted mv_ge (top_positions [samplePosition]) ∧
    (top_positions [samplePosition]).length ≤ 5 := by
  have h1 := portfolio_summary_correct emptyPosTC sampleAccount [] rfl rfl
  have h2 := portfolio_summary_correct okTC sampleAccount [samplePosition]
    rfl rfl
  exact ⟨(h1.2.1 rfl).1, (h1.2.1 rfl).2, h2.2.2.2.1, h2.2.2.2.2⟩
